import Mathlib

/-!
Verification of the web-UI adapter layer `modules/webui/webui_utils.py` of
ChatTTS-Forge.  The file under verification is glue code: it marshals
UI-widget values, applies defaulting/clamping/truncation policies, and
delegates to external modules (SSML parser, synthesis engine, audio
utilities).  Those external collaborators are not part of the file; they are
modelled here as oracle functions carried by environment structures, so that
every theorem quantifies over all possible behaviours of the collaborators.

Python integers are modelled as `Int`, Python floats that only ever meet
truthiness tests and defaulting as `Rat`, Python strings as `String`
(`str.strip()` as `pyStrip`, the slice `s[0:n]` as `pySlice`), and
Python `None` / raised exceptions at a call boundary as `Option` / `Except`.
-/

namespace WebuiUtils

/-- An SSML segment as produced by the parser: either a pause marker
(`SSMLBreak`) or a text run (`SSMLSegment`, whose `seg["text"]` field is the
string carried by the constructor). -/
inductive SSMLSeg where
  | SSMLBreak : SSMLSeg
  | SSMLSegment (text : String) : SSMLSeg
deriving DecidableEq, Repr

/-- The loop of `segments_length_limit`: `total_len` is the running
cumulative text length, `total_max` the cap.  A `break` in the Python loop
is the `[]` return; appending to `ret_segments` is the cons. -/
def segments_length_limit_loop :
    List SSMLSeg → Int → Int → List SSMLSeg
  | [], _, _ => []
  | SSMLSeg.SSMLBreak :: rest, total_len, total_max =>
      SSMLSeg.SSMLBreak :: segments_length_limit_loop rest total_len total_max
  | SSMLSeg.SSMLSegment t :: rest, total_len, total_max =>
      let total_len := total_len + (t.length : Int)
      if total_len > total_max then []
      else SSMLSeg.SSMLSegment t ::
        segments_length_limit_loop rest total_len total_max

/-- `segments_length_limit(segments, total_max)` from the source:
`total_len` starts at 0. -/
def segments_length_limit (segments : List SSMLSeg) (total_max : Int) :
    List SSMLSeg :=
  segments_length_limit_loop segments 0 total_max

/-- Sum of `len(seg["text"])` over the `SSMLSegment` elements of a list
(breaks contribute nothing), the measure used by claims C1 and C8. -/
def totalTextLen : List SSMLSeg → Int
  | [] => 0
  | SSMLSeg.SSMLBreak :: rest => totalTextLen rest
  | SSMLSeg.SSMLSegment t :: rest => (t.length : Int) + totalTextLen rest

theorem totalTextLen_nonneg : ∀ l : List SSMLSeg, 0 ≤ totalTextLen l
  | [] => le_refl 0
  | SSMLSeg.SSMLBreak :: rest => totalTextLen_nonneg rest
  | SSMLSeg.SSMLSegment t :: rest => by
      have h := totalTextLen_nonneg rest
      simp only [totalTextLen]
      positivity

theorem segments_length_limit_loop_total_le
    (segs : List SSMLSeg) :
    ∀ (tl m : Int), tl ≤ m →
      tl + totalTextLen (segments_length_limit_loop segs tl m) ≤ m := by
  induction segs with
  | nil =>
      intro tl m h
      simpa [segments_length_limit_loop, totalTextLen] using h
  | cons seg rest ih =>
      intro tl m h
      cases seg with
      | SSMLBreak =>
          simpa [segments_length_limit_loop, totalTextLen] using ih tl m h
      | SSMLSegment t =>
          by_cases hov : tl + (t.length : Int) > m
          · simpa [segments_length_limit_loop, hov, totalTextLen] using h
          · have h' : tl + (t.length : Int) ≤ m := not_lt.mp hov
            have := ih (tl + (t.length : Int)) m h'
            simp only [segments_length_limit_loop, hov, if_false,
              totalTextLen, gt_iff_lt, not_lt] at *
            linarith

/-- Claim C1: for every segment list and every non-negative `total_max`, the sum
of the `SSMLSegment` text lengths of the list returned by
`segments_length_limit` is at most `total_max`. -/
theorem segments_length_limit_total_le
    (segments : List SSMLSeg) (total_max : Int) (h : 0 ≤ total_max) :
    totalTextLen (segments_length_limit segments total_max) ≤ total_max := by
  have := segments_length_limit_loop_total_le segments 0 total_max h
  simpa [segments_length_limit] using this

/-- Witness for C1 at a concrete input. -/
theorem segments_length_limit_total_le_witness :
    0 ≤ (5 : Int) ∧
      totalTextLen
        (segments_length_limit
          [SSMLSeg.SSMLSegment "abc", SSMLSeg.SSMLBreak,
           SSMLSeg.SSMLSegment "defg"] 5) ≤ 5 :=
  ⟨by decide,
    segments_length_limit_total_le
      [SSMLSeg.SSMLSegment "abc", SSMLSeg.SSMLBreak,
       SSMLSeg.SSMLSegment "defg"] 5 (by decide)⟩

/-- The cut position described by claim C8: walk the list keeping breaks for
free, spend budget `m` on each segment's text, and stop at the first
`SSMLSegment` whose text overflows the remaining budget. -/
def limit_cut : List SSMLSeg → Int → Nat
  | [], _ => 0
  | SSMLSeg.SSMLBreak :: rest, m => limit_cut rest m + 1
  | SSMLSeg.SSMLSegment t :: rest, m =>
      if (t.length : Int) > m then 0
      else limit_cut rest (m - (t.length : Int)) + 1

theorem segments_length_limit_loop_eq_take
    (segs : List SSMLSeg) :
    ∀ (tl m : Int),
      segments_length_limit_loop segs tl m =
        segs.take (limit_cut segs (m - tl)) := by
  induction segs with
  | nil => intro tl m; simp [segments_length_limit_loop, limit_cut]
  | cons seg rest ih =>
      intro tl m
      cases seg with
      | SSMLBreak =>
          simp [segments_length_limit_loop, limit_cut, ih tl m]
      | SSMLSegment t =>
          by_cases hov : tl + (t.length : Int) > m
          · have hov' : (t.length : Int) > m - tl := by linarith
            simp [segments_length_limit_loop, hov, limit_cut, hov']
          · have hov' : ¬ (t.length : Int) > m - tl := by
              intro hc
              exact hov (by linarith)
            have := ih (tl + (t.length : Int)) m
            have harith : m - (tl + (t.length : Int)) =
                m - tl - (t.length : Int) := by ring
            simp only [segments_length_limit_loop, hov, if_false,
              limit_cut, hov', List.take_succ_cons]
            rw [this, harith]

/-- Claim C8: the result of `segments_length_limit` is a prefix of the input —
exactly the first `limit_cut segments total_max` elements, in order and
untruncated.  `limit_cut` keeps `SSMLBreak`s without spending budget and
stops at the first `SSMLSegment` whose cumulative text length overflows,
so every later element, breaks included, is dropped. -/
theorem segments_length_limit_eq_take_cut
    (segments : List SSMLSeg) (total_max : Int) :
    segments_length_limit segments total_max =
      segments.take (limit_cut segments total_max) := by
  have := segments_length_limit_loop_eq_take segments 0 total_max
  simpa [segments_length_limit] using this

/-- The slice `s[0:n]` of a Python string, for a non-negative bound `n`. -/
def pySlice (s : String) (n : Nat) : String :=
  String.mk (s.data.take n)

/-- Python `str.strip()`: remove leading and trailing whitespace. -/
def pyStrip (s : String) : String :=
  String.mk
    (((s.data.dropWhile Char.isWhitespace).reverse.dropWhile
      Char.isWhitespace).reverse)

/-- External collaborators of `synthesize_ssml`, abstracted: the SSML parser
(`create_ssml_parser().parse`), the configured `webui_config.ssml_max`, the
segment synthesizer `SynthesizeSegments(batch_size, eos, spliter_thr)
.synthesize_segments`, and the audio utilities.  `β` stands for the audio
values flowing through the pipeline. -/
structure SSMLEnv (β : Type) where
  parse : String → List SSMLSeg
  ssml_max : Int
  synthesize_segments : Int → String → Int → List SSMLSeg → β
  combine_audio_segments : β → β
  frame_rate : β → Int
  audiosegment_to_librosawav : β → β
  apply_audio_enhance : β → Int → Bool → Bool → β × Int
  audio_to_int16 : β → β

/-- The `try: batch_size = int(batch_size) except: batch_size = 8` block of
`synthesize_ssml`.  `none` stands for a `batch_size` whose conversion to an
integer raises. -/
def ssml_batch_size_fallback : Option Int → Int
  | some b => b
  | none => 8

/-- The `try: batch_size = int(batch_size) except: batch_size = 4` block of
`tts_generate`. -/
def tts_batch_size_fallback : Option Int → Int
  | some b => b
  | none => 4

/-- The declared default of the `batch_size` parameter of
`synthesize_ssml` (`batch_size=4` in the signature). -/
def synthesize_ssml_default_batch_size : Int := 4

/-- The declared default of the `batch_size` parameter of
`tts_generate` (`batch_size=4` in the signature). -/
def tts_generate_default_batch_size : Int := 4

/-- `synthesize_ssml` from the source.  The `progress` UI callback is
omitted.  Returns `none` where the Python returns `None`, otherwise
`some (sr, audio_data)`. -/
def synthesize_ssml {β : Type} (env : SSMLEnv β) (ssml : String)
    (batch_size : Option Int) (enable_enhance : Bool)
    (enable_denoise : Bool) (eos : String) (spliter_thr : Int) :
    Option (Int × β) :=
  let batch_size := ssml_batch_size_fallback batch_size
  let ssml := pyStrip ssml
  if ssml = "" then none
  else
    let segments := env.parse ssml
    let max_len := env.ssml_max
    let segments := segments_length_limit segments max_len
    if segments.length = 0 then none
    else
      let audio_segments :=
        env.synthesize_segments batch_size eos spliter_thr segments
      let combined_audio := env.combine_audio_segments audio_segments
      let sr := env.frame_rate combined_audio
      let p := env.apply_audio_enhance
        (env.audiosegment_to_librosawav combined_audio) sr
        enable_denoise enable_enhance
      let audio_data := env.audio_to_int16 p.1
      some (p.2, audio_data)

/-- A probe environment over `β := Int` whose synthesis pipeline reports the
`batch_size` it was handed as the audio payload, with frame rate 0. -/
def ssmlProbeEnv : SSMLEnv Int where
  parse := fun _ => [SSMLSeg.SSMLSegment "x"]
  ssml_max := 10
  synthesize_segments := fun batch_size _ _ _ => batch_size
  combine_audio_segments := fun a => a
  frame_rate := fun _ => 0
  audiosegment_to_librosawav := fun a => a
  apply_audio_enhance := fun a sr _ _ => (a, sr)
  audio_to_int16 := fun a => a

/-- Claim C2, counterexample: when `int(batch_size)` raises, `synthesize_ssml`
proceeds with batch size 8, which is not its declared default of 4, so the
claim that the fallback is "the function's default batch size value" fails
on `synthesize_ssml`. -/
theorem ssml_batch_fallback_ne_default :
    synthesize_ssml ssmlProbeEnv "a" none false false "[uv_break]" 100 =
        some (0, 8) ∧
      ssml_batch_size_fallback none ≠ synthesize_ssml_default_batch_size := by
  constructor
  · decide
  · decide

/-- Claim C2, amended: when `int(batch_size)` raises, neither function raises;
`tts_generate` proceeds with its declared default 4, while `synthesize_ssml`
proceeds with the hard-coded value 8, which differs from its declared
default 4.  A successful conversion passes through unchanged. -/
theorem batch_size_fallback_amended :
    ssml_batch_size_fallback none = 8 ∧
      tts_batch_size_fallback none = 4 ∧
      tts_batch_size_fallback none = tts_generate_default_batch_size ∧
      ssml_batch_size_fallback none ≠ synthesize_ssml_default_batch_size ∧
      ∀ b : Int, ssml_batch_size_fallback (some b) = b ∧
        tts_batch_size_fallback (some b) = b := by
  refine ⟨rfl, rfl, rfl, by decide, ?_⟩
  intro b
  exact ⟨rfl, rfl⟩

/-- Claim C10: `synthesize_ssml` returns `None` for every SSML string, blank or
not, for which parsing followed by `segments_length_limit` with
`webui_config.ssml_max` yields an empty segment list; the synthesis oracle
is never consulted (the result is `none` for every environment agreeing on
`parse` and `ssml_max`). -/
theorem ssml_empty_segments_returns_none {β : Type} (env : SSMLEnv β)
    (ssml : String) (batch_size : Option Int)
    (enable_enhance enable_denoise : Bool) (eos : String) (spliter_thr : Int)
    (h : segments_length_limit (env.parse (pyStrip ssml)) env.ssml_max = []) :
    synthesize_ssml env ssml batch_size enable_enhance enable_denoise
      eos spliter_thr = none := by
  unfold synthesize_ssml
  by_cases hb : pyStrip ssml = ""
  · simp [hb]
  · simp [hb, h]

/-- An environment whose parser returns segments that all overflow a zero
`ssml_max`, so the limited list is empty on every input. -/
def ssmlOverflowEnv : SSMLEnv Int where
  parse := fun _ => [SSMLSeg.SSMLSegment "hello"]
  ssml_max := 0
  synthesize_segments := fun batch_size _ _ _ => batch_size
  combine_audio_segments := fun a => a
  frame_rate := fun _ => 0
  audiosegment_to_librosawav := fun a => a
  apply_audio_enhance := fun a sr _ _ => (a, sr)
  audio_to_int16 := fun a => a

/-- Witness for C10: a non-blank SSML string whose parsed segments are all
dropped by the length limit yields `none`. -/
theorem ssml_empty_segments_returns_none_witness :
    synthesize_ssml ssmlOverflowEnv "hello" (some 4) false false
      "[uv_break]" 100 = none :=
  ssml_empty_segments_returns_none ssmlOverflowEnv "hello" (some 4)
    false false "[uv_break]" 100 (by decide)

/-- The style/speaker parameter dictionary returned by `calc_spk_style`:
`none` for a key models its absence from the dictionary.  The source's
`"prefix"` key is called `pfx` here (`prefix` is reserved in Lean). -/
structure TTSParams where
  spk : Option Int
  seed : Option Int
  temperature : Option Rat
  pfx : Option String
  prompt1 : Option String
  prompt2 : Option String

/-- The keyword arguments `tts_generate` hands to `synthesize_audio`.
`pfx` is the source's `prefix` argument. -/
structure SynthArgs where
  text : String
  temperature : Rat
  top_P : Rat
  top_K : Int
  spk : Int
  infer_seed : Int
  use_decoder : Bool
  prompt1 : String
  prompt2 : String
  pfx : String
  batch_size : Int
  end_of_sentence : String
  spliter_threshold : Int

/-- External collaborators of `tts_generate`, abstracted.  Speakers are
identified by `Int` (the `-1`/UI id or a loaded record's id); audio values
have type `β`.  `tts_max` is `webui_config.tts_max`, a non-negative length
cap, hence `Nat`. -/
structure TTSEnv (β : Type) where
  tts_max : Nat
  calc_spk_style : Int → Option String → TTSParams
  text_normalize : String → String
  speaker_from_file : String → Int
  synthesize_audio : SynthArgs → Int × β
  apply_audio_enhance : β → Int → Bool → Bool → β × Int
  audio_to_int16 : β → β

/-- `text.strip()[0:max_len]` from `tts_generate`. -/
def tts_truncate (text : String) (max_len : Nat) : String :=
  pySlice (pyStrip text) max_len

/-- `infer_seed = infer_seed or params.get("seed", infer_seed)`: a Python
`or` on a number treats 0 as falsy. -/
def resolve_infer_seed (infer_seed : Int) (seedParam : Option Int) : Int :=
  if infer_seed = 0 then seedParam.getD infer_seed else infer_seed

/-- `temperature = temperature or params.get("temperature", temperature)`. -/
def resolve_temperature (temperature : Rat) (tempParam : Option Rat) : Rat :=
  if temperature = 0 then tempParam.getD temperature else temperature

/-- `prefix = prefix or params.get("prefix", prefix)`: a Python `or` on a
string treats `""` as falsy. -/
def resolve_pfx (p : String) (pParam : Option String) : String :=
  if p = "" then pParam.getD p else p

/-- `prompt1 = prompt1 or params.get("prompt1", "")` (same for prompt2):
note the dictionary default is `""`, not the original argument. -/
def resolve_prompt (p : String) (pParam : Option String) : String :=
  if p = "" then pParam.getD "" else p

/-- `np.clip(infer_seed, -1, 2**32 - 1, dtype=np.float64)` followed by
`int(...)`.  On integer inputs this equals an exact integer clamp: every
integer in `[-1, 2^32 - 1]` and both bounds are exactly representable as
float64, so no rounding occurs. -/
def clip_infer_seed (s : Int) : Int :=
  max (-1) (min s (2 ^ 32 - 1))

/-- The parameter-marshalling block of `tts_generate` (style resolution,
falsy-argument defaulting, seed clamping, optional normalization, speaker
file override), producing the arguments passed to `synthesize_audio`.
`text` is the already stripped-and-truncated input.  The source's
`isinstance(top_k, float)` coercion is the identity in the integer model. -/
def tts_build_args {β : Type} (env : TTSEnv β) (text : String)
    (temperature top_p : Rat) (top_k spk infer_seed : Int)
    (use_decoder : Bool) (prompt1 prompt2 pfx style : String)
    (disable_normalize : Bool) (batch_size : Int)
    (spk_file : Option String) (eos : String) (spliter_thr : Int) :
    SynthArgs :=
  let styleOpt := if style = "*auto" then none else some style
  let params := env.calc_spk_style spk styleOpt
  let spk := params.spk.getD spk
  let infer_seed := resolve_infer_seed infer_seed params.seed
  let temperature := resolve_temperature temperature params.temperature
  let pfx := resolve_pfx pfx params.pfx
  let prompt1 := resolve_prompt prompt1 params.prompt1
  let prompt2 := resolve_prompt prompt2 params.prompt2
  let infer_seed := clip_infer_seed infer_seed
  let text := if disable_normalize then text else env.text_normalize text
  let spk := match spk_file with
    | some f => env.speaker_from_file f
    | none => spk
  { text := text
    temperature := temperature
    top_P := top_p
    top_K := top_k
    spk := spk
    infer_seed := infer_seed
    use_decoder := use_decoder
    prompt1 := prompt1
    prompt2 := prompt2
    pfx := pfx
    batch_size := batch_size
    end_of_sentence := eos
    spliter_threshold := spliter_thr }

/-- `tts_generate` from the source (`progress` UI callback omitted).
Returns `none` where the Python returns `None`, otherwise
`some (sample_rate, audio_data)`. -/
def tts_generate {β : Type} (env : TTSEnv β) (text : String)
    (temperature top_p : Rat) (top_k spk infer_seed : Int)
    (use_decoder : Bool) (prompt1 prompt2 pfx style : String)
    (disable_normalize : Bool) (batch_size : Option Int)
    (enable_enhance enable_denoise : Bool) (spk_file : Option String)
    (spliter_thr : Int) (eos : String) : Option (Int × β) :=
  let batch_size := tts_batch_size_fallback batch_size
  let max_len := env.tts_max
  let text := tts_truncate text max_len
  if text = "" then none
  else
    let args := tts_build_args env text temperature top_p top_k spk
      infer_seed use_decoder prompt1 prompt2 pfx style disable_normalize
      batch_size spk_file eos spliter_thr
    let p := env.synthesize_audio args
    let q := env.apply_audio_enhance p.2 p.1 enable_denoise enable_enhance
    let audio_data := env.audio_to_int16 q.1
    some (q.2, audio_data)

/-- A probe environment over `β := Int` whose style dictionary is empty and
whose synthesis reports the seed it received as the sample rate and the
batch size as the audio payload. -/
def ttsProbeEnv : TTSEnv Int where
  tts_max := 120
  calc_spk_style := fun _ _ =>
    { spk := none
      seed := none
      temperature := none
      pfx := none
      prompt1 := none
      prompt2 := none }
  text_normalize := fun s => s
  speaker_from_file := fun _ => 0
  synthesize_audio := fun a => (a.infer_seed, a.batch_size)
  apply_audio_enhance := fun a sr _ _ => (a, sr)
  audio_to_int16 := fun a => a

theorem tts_build_args_infer_seed {β : Type} (env : TTSEnv β)
    (text : String) (temperature top_p : Rat) (top_k spk infer_seed : Int)
    (use_decoder : Bool) (prompt1 prompt2 pfx style : String)
    (disable_normalize : Bool) (batch_size : Int)
    (spk_file : Option String) (eos : String) (spliter_thr : Int) :
    (tts_build_args env text temperature top_p top_k spk infer_seed
        use_decoder prompt1 prompt2 pfx style disable_normalize batch_size
        spk_file eos spliter_thr).infer_seed =
      clip_infer_seed (resolve_infer_seed infer_seed
        (env.calc_spk_style spk
          (if style = "*auto" then none else some style)).seed) := rfl

/-- Claim C3: the seed `tts_generate` passes to `synthesize_audio` always
lies in `[-1, 2^32 - 1]`; an `infer_seed` argument below `-1` becomes `-1`,
one above `2^32 - 1` becomes `2^32 - 1`, and a nonzero in-range one passes
through unchanged, whatever the style dictionary contains. -/
theorem tts_infer_seed_clamped {β : Type} (env : TTSEnv β)
    (text : String) (temperature top_p : Rat) (top_k spk infer_seed : Int)
    (use_decoder : Bool) (prompt1 prompt2 pfx style : String)
    (disable_normalize : Bool) (batch_size : Int)
    (spk_file : Option String) (eos : String) (spliter_thr : Int) :
    let a := tts_build_args env text temperature top_p top_k spk infer_seed
      use_decoder prompt1 prompt2 pfx style disable_normalize batch_size
      spk_file eos spliter_thr
    (-1 ≤ a.infer_seed ∧ a.infer_seed ≤ 2 ^ 32 - 1) ∧
      (infer_seed < -1 → a.infer_seed = -1) ∧
      (2 ^ 32 - 1 < infer_seed → a.infer_seed = 2 ^ 32 - 1) ∧
      (infer_seed ≠ 0 → -1 ≤ infer_seed → infer_seed ≤ 2 ^ 32 - 1 →
        a.infer_seed = infer_seed) := by
  intro a
  have ha : a.infer_seed = clip_infer_seed (resolve_infer_seed infer_seed
      (env.calc_spk_style spk
        (if style = "*auto" then none else some style)).seed) :=
    tts_build_args_infer_seed env text temperature top_p top_k spk
      infer_seed use_decoder prompt1 prompt2 pfx style disable_normalize
      batch_size spk_file eos spliter_thr
  refine ⟨⟨?_, ?_⟩, ?_, ?_, ?_⟩
  · rw [ha]
    unfold clip_infer_seed
    omega
  · rw [ha]
    unfold clip_infer_seed
    omega
  · intro hlt
    have hne : infer_seed ≠ 0 := by omega
    rw [ha]
    unfold resolve_infer_seed clip_infer_seed
    simp only [hne, if_false]
    omega
  · intro hgt
    have hne : infer_seed ≠ 0 := by omega
    rw [ha]
    unfold resolve_infer_seed clip_infer_seed
    simp only [hne, if_false]
    omega
  · intro hne hlo hhi
    rw [ha]
    unfold resolve_infer_seed clip_infer_seed
    simp only [hne, if_false]
    omega

/-- Witness for C3: the nonzero in-range seed 5 reaches `synthesize_audio`
unchanged. -/
theorem tts_infer_seed_clamped_witness :
    (tts_build_args ttsProbeEnv "hi" 1 1 20 (-1) 5 true "" "" "" ""
      false 4 none "[uv_break]" 100).infer_seed = 5 :=
  (tts_infer_seed_clamped ttsProbeEnv "hi" 1 1 20 (-1) 5 true "" "" "" ""
    false 4 none "[uv_break]" 100).2.2.2
    (by decide) (by decide) (by decide)

/-- Claim C4: the input text of `tts_generate` is stripped of surrounding
whitespace and truncated to at most `webui_config.tts_max` characters
before any further processing (`tts_truncate` is the first transformation
applied to `text` in `tts_generate`), so the truncated text never has
length greater than `tts_max`. -/
theorem tts_truncate_length_le {β : Type} (env : TTSEnv β) (text : String) :
    (tts_truncate text env.tts_max).length ≤ env.tts_max := by
  show ((pyStrip text).data.take env.tts_max).length ≤ env.tts_max
  rw [List.length_take]
  exact min_le_left _ _

/-- Claim C5: both entry points return `Option (Int × β)` — an empty result
(`none`, Python `None`) or a `(sample rate, audio buffer)` pair — and on an
input whose `strip()` is empty, each returns `none` for every behaviour of
the external collaborators, i.e. without consulting the parser or the
synthesis oracle. -/
theorem empty_input_returns_none {β : Type} (envT : TTSEnv β)
    (envS : SSMLEnv β) (text ssml : String) (temperature top_p : Rat)
    (top_k spk infer_seed : Int) (use_decoder : Bool)
    (prompt1 prompt2 pfx style : String) (disable_normalize : Bool)
    (batch_size batch_size' : Option Int)
    (enable_enhance enable_denoise : Bool) (spk_file : Option String)
    (spliter_thr : Int) (eos : String)
    (htext : pyStrip text = "") (hssml : pyStrip ssml = "") :
    tts_generate envT text temperature top_p top_k spk infer_seed
        use_decoder prompt1 prompt2 pfx style disable_normalize batch_size
        enable_enhance enable_denoise spk_file spliter_thr eos = none ∧
      synthesize_ssml envS ssml batch_size' enable_enhance enable_denoise
        eos spliter_thr = none := by
  constructor
  · have htr : tts_truncate text envT.tts_max = "" := by
      unfold tts_truncate pySlice
      rw [htext]
      have hd : ("" : String).data = ([] : List Char) := rfl
      rw [hd, List.take_nil]
    unfold tts_generate
    simp [htr]
  · unfold synthesize_ssml
    simp [hssml]

/-- Witness for C5 at whitespace-only inputs. -/
theorem empty_input_returns_none_witness :
    tts_generate ttsProbeEnv "  " 1 1 20 (-1) (-1) true "" "" "" "" false
        (some 4) false false none 100 "[uv_break]" = none ∧
      synthesize_ssml ssmlProbeEnv " " (some 4) false false "[uv_break]"
        100 = none :=
  empty_input_returns_none ttsProbeEnv ssmlProbeEnv "  " " " 1 1 20 (-1)
    (-1) true "" "" "" "" false (some 4) (some 4) false false none 100
    "[uv_break]" (by decide) (by decide)

/-- Claim C9, counterexample: with a style dictionary that carries no
`seed` or `temperature` entry, a caller passing `temperature = 0` and
`infer_seed = 0` sees both values survive to `synthesize_audio` — the full
call reports sample rate 0 (the received seed), refuting "a caller can
never actually request temperature 0 or seed 0". -/
theorem tts_falsy_zero_reaches_synthesis :
    (tts_build_args ttsProbeEnv "hi" 0 1 20 (-1) 0 true "" "" "" "" false
        4 none "[uv_break]" 100).temperature = 0 ∧
      (tts_build_args ttsProbeEnv "hi" 0 1 20 (-1) 0 true "" "" "" ""
        false 4 none "[uv_break]" 100).infer_seed = 0 ∧
      tts_generate ttsProbeEnv "hi" 0 1 20 (-1) 0 true "" "" "" "" false
        (some 4) false false none 100 "[uv_break]" = some (0, 4) := by
  refine ⟨by decide, by decide, by decide⟩

/-- Claim C9, amended: a falsy `temperature` (0), `infer_seed` (0),
`prefix`, `prompt1` or `prompt2` (`""`) is replaced by the style-derived
value when `calc_spk_style` provides the corresponding key, the prompts
defaulting to `""`; but when the style provides no such key, `temperature`
and `infer_seed` keep the caller's falsy value, so temperature 0 and
seed 0 can still reach `synthesize_audio`. -/
theorem tts_falsy_fallback_resolution {β : Type} (env : TTSEnv β)
    (text : String) (temperature top_p : Rat) (top_k spk infer_seed : Int)
    (use_decoder : Bool) (prompt1 prompt2 pfx style : String)
    (disable_normalize : Bool) (batch_size : Int)
    (spk_file : Option String) (eos : String) (spliter_thr : Int) :
    let params := env.calc_spk_style spk
      (if style = "*auto" then none else some style)
    let a := tts_build_args env text temperature top_p top_k spk infer_seed
      use_decoder prompt1 prompt2 pfx style disable_normalize batch_size
      spk_file eos spliter_thr
    (temperature = 0 → a.temperature = params.temperature.getD temperature) ∧
      (temperature ≠ 0 → a.temperature = temperature) ∧
      (infer_seed = 0 →
        a.infer_seed = clip_infer_seed (params.seed.getD infer_seed)) ∧
      (pfx = "" → a.pfx = params.pfx.getD pfx) ∧
      (prompt1 = "" → a.prompt1 = params.prompt1.getD "") ∧
      (prompt2 = "" → a.prompt2 = params.prompt2.getD "") ∧
      (params.temperature = none → temperature = 0 → a.temperature = 0) ∧
      (params.seed = none → infer_seed = 0 → a.infer_seed = 0) := by
  intro params a
  refine ⟨?_, ?_, ?_, ?_, ?_, ?_, ?_, ?_⟩
  · intro h0
    show resolve_temperature temperature params.temperature =
      params.temperature.getD temperature
    unfold resolve_temperature
    simp [h0]
  · intro h0
    show resolve_temperature temperature params.temperature = temperature
    unfold resolve_temperature
    simp [h0]
  · intro h0
    show clip_infer_seed (resolve_infer_seed infer_seed params.seed) =
      clip_infer_seed (params.seed.getD infer_seed)
    unfold resolve_infer_seed
    simp [h0]
  · intro h0
    show resolve_pfx pfx params.pfx = params.pfx.getD pfx
    unfold resolve_pfx
    simp [h0]
  · intro h0
    show resolve_prompt prompt1 params.prompt1 = params.prompt1.getD ""
    unfold resolve_prompt
    simp [h0]
  · intro h0
    show resolve_prompt prompt2 params.prompt2 = params.prompt2.getD ""
    unfold resolve_prompt
    simp [h0]
  · intro hnone h0
    show resolve_temperature temperature params.temperature = 0
    unfold resolve_temperature
    simp [h0, hnone]
  · intro hnone h0
    show clip_infer_seed (resolve_infer_seed infer_seed params.seed) = 0
    unfold resolve_infer_seed clip_infer_seed
    simp [h0, hnone]

/-- Witness for the amended C9: with an empty style dictionary a requested
temperature of 0 survives resolution. -/
theorem tts_falsy_fallback_resolution_witness :
    (tts_build_args ttsProbeEnv "hi" 0 1 20 (-1) 7 true "" "" "" "" false
      4 none "[uv_break]" 100).temperature = 0 :=
  (tts_falsy_fallback_resolution ttsProbeEnv "hi" 0 1 20 (-1) 7 true ""
    "" "" "" false 4 none "[uv_break]" 100).2.2.2.2.2.2.1 rfl rfl

/-- The record returned by `Speaker.to_json()` as far as `load_spk_info`
reads it. -/
structure SpkInfoJson where
  name : String
  gender : String
  describe : String

/-- `load_spk_info`.  `file = none` is a Python `None` argument; `loader`
models the whole `try` body — `Speaker.from_file`, `to_json()` and the
f-string field accesses — with `Except.error` standing for any exception it
raises, which the bare `except:` catches.  The function is total: no
exception propagates. -/
def load_spk_info {F E : Type} (loader : F → Except E SpkInfoJson)
    (file : Option F) : String :=
  match file with
  | none => "empty"
  | some f =>
    match loader f with
    | Except.error _ => "load failed"
    | Except.ok infos =>
        pyStrip ("\n- name: " ++ infos.name ++ "\n- gender: " ++
          infos.gender ++ "\n- describe: " ++ infos.describe ++ "\n    ")

/-- Claim C6: `load_spk_info` never propagates an exception (it is a total
function of the loader's outcome): a `None` file yields `"empty"`, and a
file on which loading raises yields `"load failed"`. -/
theorem load_spk_info_fallbacks {F E : Type}
    (loader : F → Except E SpkInfoJson) (file : Option F) :
    (file = none → load_spk_info loader file = "empty") ∧
      (∀ f e, file = some f → loader f = Except.error e →
        load_spk_info loader file = "load failed") := by
  constructor
  · intro h
    rw [h]
    rfl
  · intro f e hf he
    subst hf
    simp only [load_spk_info]
    rw [he]

/-- Witness for C6 with a loader that always raises. -/
theorem load_spk_info_fallbacks_witness :
    load_spk_info (fun _ : Nat => (Except.error () : Except Unit SpkInfoJson))
        (some 0) = "load failed" ∧
      load_spk_info
        (fun _ : Nat => (Except.error () : Except Unit SpkInfoJson))
        none = "empty" :=
  ⟨(load_spk_info_fallbacks
      (fun _ : Nat => (Except.error () : Except Unit SpkInfoJson))
      (some 0)).2 0 () rfl rfl,
    (load_spk_info_fallbacks
      (fun _ : Nat => (Except.error () : Except Unit SpkInfoJson))
      none).1 rfl⟩

/-- External collaborators of `split_long_text`:
`SentenceSplitter(webui_config.spliter_threshold).parse` and
`text_normalize`. -/
structure SplitEnv where
  spliter_threshold : Int
  sentence_splitter : Int → String → List String
  text_normalize : String → String

/-- The `for i, text in enumerate(sentences): data.append([i, text,
len(text)])` loop, with `i` the running index. -/
def split_rows : Nat → List String → List (Nat × String × Nat)
  | _, [] => []
  | i, t :: rest => (i, t, t.length) :: split_rows (i + 1) rest

/-- `split_long_text` from the source: split, normalize each sentence,
then tabulate `[i, text, len(text)]` rows. -/
def split_long_text (env : SplitEnv) (long_text_input : String) :
    List (Nat × String × Nat) :=
  let sentences := env.sentence_splitter env.spliter_threshold
    long_text_input
  let sentences := sentences.map env.text_normalize
  split_rows 0 sentences

theorem length_split_rows :
    ∀ (l : List String) (i : Nat), (split_rows i l).length = l.length
  | [], _ => rfl
  | _ :: rest, i => by
      simp [split_rows, length_split_rows rest (i + 1)]

theorem split_rows_get :
    ∀ (l : List String) (i0 j : Nat) (h : j < (split_rows i0 l).length)
      (hl : j < l.length),
      (split_rows i0 l).get ⟨j, h⟩ =
        (i0 + j, l.get ⟨j, hl⟩, (l.get ⟨j, hl⟩).length) := by
  intro l
  induction l with
  | nil => intro i0 j h hl; exact absurd hl (by simp)
  | cons t rest ih =>
      intro i0 j h hl
      cases j with
      | zero => simp [split_rows]
      | succ j' =>
          have h' : j' < (split_rows (i0 + 1) rest).length := by
            simpa [split_rows] using h
          have hl' : j' < rest.length := by simpa using hl
          have := ih (i0 + 1) j' h' hl'
          simp only [split_rows, List.get_cons_succ, this]
          have harith : i0 + 1 + j' = i0 + (j' + 1) := by omega
          rw [harith]

/-- Claim C7: for every input, the `i`-th row of `split_long_text` is
`[i, sᵢ, len(sᵢ)]` where `sᵢ` is the `i`-th normalized sentence of the
splitter output; in particular each row's first element is its position and
its third element is the length of its second. -/
theorem split_long_text_rows (env : SplitEnv) (input : String) (i : Nat)
    (h : i < (split_long_text env input).length) :
    ∃ hs : i < ((env.sentence_splitter env.spliter_threshold input).map
        env.text_normalize).length,
      (split_long_text env input).get ⟨i, h⟩ =
        (i,
          ((env.sentence_splitter env.spliter_threshold input).map
            env.text_normalize).get ⟨i, hs⟩,
          (((env.sentence_splitter env.spliter_threshold input).map
            env.text_normalize).get ⟨i, hs⟩).length) := by
  have hs : i < ((env.sentence_splitter env.spliter_threshold input).map
      env.text_normalize).length := by
    simp only [split_long_text] at h
    rw [length_split_rows] at h
    exact h
  refine ⟨hs, ?_⟩
  have := split_rows_get
    ((env.sentence_splitter env.spliter_threshold input).map
      env.text_normalize) 0 i h hs
  simpa [split_long_text] using this

/-- A probe environment for `split_long_text`: the splitter doubles its
input, normalization is the identity. -/
def splitProbeEnv : SplitEnv where
  spliter_threshold := 100
  sentence_splitter := fun _ s => [s, s]
  text_normalize := fun s => s

/-- Witness for C7 at row 1 of a concrete input. -/
theorem split_long_text_rows_witness :
    ∃ hs : 1 < ((splitProbeEnv.sentence_splitter
        splitProbeEnv.spliter_threshold "ab").map
        splitProbeEnv.text_normalize).length,
      (split_long_text splitProbeEnv "ab").get ⟨1, by decide⟩ =
        (1,
          ((splitProbeEnv.sentence_splitter splitProbeEnv.spliter_threshold
            "ab").map splitProbeEnv.text_normalize).get ⟨1, hs⟩,
          (((splitProbeEnv.sentence_splitter splitProbeEnv.spliter_threshold
            "ab").map splitProbeEnv.text_normalize).get ⟨1, hs⟩).length) :=
  split_long_text_rows splitProbeEnv "ab" 1 (by decide)

end WebuiUtils
